import Mathlib

set_option linter.unusedVariables false

/-!
Verification development for the CNPJ consultation system
(`src/legacy/cnpj_consultor_v2.py` and `src/legacy/main.py`).

The extractor, coordinator and captcha wait-loop are embedded as
executable Lean functions; string primitives are modelled over `List Char`
(Python's `str`), with ASCII digits standing in for the `\d`/`isdigit`
character classes.
-/

namespace Nexconsult

/-! ## String primitives (Python `str` operations over `List Char`) -/

/-- Whitespace stripped by Python's `str.strip` (ASCII range). -/
def isSpace (c : Char) : Bool :=
  c = ' ' || c = '\t' || c = '\n' || c = '\r' || c = '\x0b' || c = '\x0c'

/-- `isPrefixL sub l` : does `l` start with `sub`? -/
def isPrefixL : List Char → List Char → Bool
  | [], _ => true
  | _ :: _, [] => false
  | a :: as, b :: bs => a = b && isPrefixL as bs

/-- Python `sub in s` (substring containment). -/
def containsL (sub : List Char) : List Char → Bool
  | [] => sub.isEmpty
  | c :: rest => isPrefixL sub (c :: rest) || containsL sub rest

/-- Python `s.split(sep, 1)` when it yields two parts: split at the first
occurrence of `sep`; `none` when `sep` does not occur. -/
def splitOnceL (sep : List Char) : List Char → Option (List Char × List Char)
  | [] => if sep.isEmpty then some ([], []) else none
  | c :: rest =>
    if isPrefixL sep (c :: rest) then some ([], (c :: rest).drop sep.length)
    else (splitOnceL sep rest).map (fun p => (c :: p.1, p.2))

/-- Python `s.split('\n')`. -/
def splitNlL : List Char → List (List Char)
  | [] => [[]]
  | a :: rest =>
    let r := splitNlL rest
    if a = '\n' then [] :: r
    else
      match r with
      | h :: t => (a :: h) :: t
      | [] => [[a]]

/-- Python `s.strip()`. -/
def trimL (l : List Char) : List Char :=
  ((l.dropWhile isSpace).reverse.dropWhile isSpace).reverse

/-- String-level wrappers. -/
def strContains (s sub : String) : Bool := containsL sub.data s.data

def strSplitOnce (s sep : String) : Option (String × String) :=
  (splitOnceL sep.data s.data).map (fun p => (⟨p.1⟩, ⟨p.2⟩))

def strTrim (s : String) : String := ⟨trimL s.data⟩

def strLines (s : String) : List String := (splitNlL s.data).map (⟨·⟩)

/-- Python `re.sub(r'\D', '', s)` (ASCII digits). -/
def digitsOf (s : String) : String := ⟨s.data.filter Char.isDigit⟩

/-! ## The `Emitido no dia` timestamp pattern
(`re.search(r'(\d{2}/\d{2}/\d{4}) às (\d{2}:\d{2}:\d{2})', line)`, a
fixed-length pattern searched left to right). -/

inductive Tok where
  | dig : Tok
  | lit : Char → Tok
deriving DecidableEq, Repr

def shapeMatch : List Tok → List Char → Bool
  | [], _ => true
  | _ :: _, [] => false
  | .dig :: ts, c :: cs => c.isDigit && shapeMatch ts cs
  | .lit x :: ts, c :: cs => c = x && shapeMatch ts cs

def stampShape : List Tok :=
  [.dig, .dig, .lit '/', .dig, .dig, .lit '/', .dig, .dig, .dig, .dig,
   .lit ' ', .lit 'à', .lit 's', .lit ' ',
   .dig, .dig, .lit ':', .dig, .dig, .lit ':', .dig, .dig]

/-- Leftmost match of the date/time stamp; returns (date group, time group). -/
def findStamp : List Char → Option (String × String)
  | [] => none
  | c :: rest =>
    if shapeMatch stampShape (c :: rest) then
      some (⟨(c :: rest).take 10⟩, ⟨((c :: rest).drop 14).take 8⟩)
    else findStamp rest

/-! ## Data model (`CNPJData` of `cnpj_consultor_v2.py`) -/

structure Atividade where
  codigo : String
  descricao : String
deriving DecidableEq, Repr

structure CnpjSec where
  numero : String
  tipo : String
  data_abertura : String
deriving DecidableEq, Repr

structure Empresa where
  razao_social : String
  nome_fantasia : String
  porte : String
  natureza_juridica : Atividade
deriving DecidableEq, Repr

structure Atividades where
  principal : Atividade
  secundarias : List Atividade
deriving DecidableEq, Repr

structure Endereco where
  logradouro : String
  numero : String
  complemento : String
  cep : String
  bairro : String
  municipio : String
  uf : String
deriving DecidableEq, Repr

structure Contato where
  email : String
  telefone : String
deriving DecidableEq, Repr

structure Situacao where
  cadastral : String
  data_situacao : String
  motivo : String
  situacao_especial : String
  data_situacao_especial : String
deriving DecidableEq, Repr

structure Comprovante where
  data_emissao : String
  hora_emissao : String
deriving DecidableEq, Repr

/-- `metadados` dict: `url_consulta` is added later by the coordinator,
hence optional (absent key = `none`). -/
structure Metadados where
  timestamp : String
  sucesso : Bool
  url_consulta : Option String
deriving DecidableEq, Repr

structure CNPJData where
  cnpj : CnpjSec
  empresa : Empresa
  atividades : Atividades
  endereco : Endereco
  contato : Contato
  situacao : Situacao
  comprovante : Comprovante
  metadados : Metadados
deriving DecidableEq, Repr

/-- The initial zero record built at the top of `extract_from_text`
(`now` is the value of `time.strftime(...)` at the call). -/
def initData (now : String) : CNPJData :=
  { cnpj := { numero := "", tipo := "", data_abertura := "" }
    empresa := { razao_social := "", nome_fantasia := "", porte := ""
                 natureza_juridica := { codigo := "", descricao := "" } }
    atividades := { principal := { codigo := "", descricao := "" }, secundarias := [] }
    endereco := { logradouro := "", numero := "", complemento := "", cep := ""
                  bairro := "", municipio := "", uf := "" }
    contato := { email := "", telefone := "" }
    situacao := { cadastral := "", data_situacao := "", motivo := ""
                  situacao_especial := "", data_situacao_especial := "" }
    comprovante := { data_emissao := "", hora_emissao := "" }
    metadados := { timestamp := now, sucesso := true, url_consulta := none } }

/-! ## The V2 extractor (`CNPJDataExtractor.extract_from_text`) -/

/-- Targets of the `field_map` table. -/
inductive FieldTarget where
  | cnpj_numero | cnpj_data_abertura
  | razao_social | nome_fantasia | porte
  | logradouro | end_numero | complemento | cep | bairro | municipio | uf
  | telefone
  | sit_cadastral | sit_data
deriving DecidableEq, Repr

/-- Write a simple mapped field. -/
def setTarget (d : CNPJData) (t : FieldTarget) (v : String) : CNPJData :=
  match t with
  | .cnpj_numero => { d with cnpj := { d.cnpj with numero := v } }
  | .cnpj_data_abertura => { d with cnpj := { d.cnpj with data_abertura := v } }
  | .razao_social => { d with empresa := { d.empresa with razao_social := v } }
  | .nome_fantasia => { d with empresa := { d.empresa with nome_fantasia := v } }
  | .porte => { d with empresa := { d.empresa with porte := v } }
  | .logradouro => { d with endereco := { d.endereco with logradouro := v } }
  | .end_numero => { d with endereco := { d.endereco with numero := v } }
  | .complemento => { d with endereco := { d.endereco with complemento := v } }
  | .cep => { d with endereco := { d.endereco with cep := v } }
  | .bairro => { d with endereco := { d.endereco with bairro := v } }
  | .municipio => { d with endereco := { d.endereco with municipio := v } }
  | .uf => { d with endereco := { d.endereco with uf := v } }
  | .telefone => { d with contato := { d.contato with telefone := v } }
  | .sit_cadastral => { d with situacao := { d.situacao with cadastral := v } }
  | .sit_data => { d with situacao := { d.situacao with data_situacao := v } }

/-- Read a simple mapped field. -/
def getTarget (d : CNPJData) (t : FieldTarget) : String :=
  match t with
  | .cnpj_numero => d.cnpj.numero
  | .cnpj_data_abertura => d.cnpj.data_abertura
  | .razao_social => d.empresa.razao_social
  | .nome_fantasia => d.empresa.nome_fantasia
  | .porte => d.empresa.porte
  | .logradouro => d.endereco.logradouro
  | .end_numero => d.endereco.numero
  | .complemento => d.endereco.complemento
  | .cep => d.endereco.cep
  | .bairro => d.endereco.bairro
  | .municipio => d.endereco.municipio
  | .uf => d.endereco.uf
  | .telefone => d.contato.telefone
  | .sit_cadastral => d.situacao.cadastral
  | .sit_data => d.situacao.data_situacao

/-- The exact label a target is keyed under in `field_map`. -/
def labelOf (t : FieldTarget) : String :=
  match t with
  | .cnpj_numero => "NÚMERO DE INSCRIÇÃO"
  | .cnpj_data_abertura => "DATA DE ABERTURA"
  | .razao_social => "NOME EMPRESARIAL"
  | .nome_fantasia => "TÍTULO DO ESTABELECIMENTO (NOME DE FANTASIA)"
  | .porte => "PORTE"
  | .logradouro => "LOGRADOURO"
  | .end_numero => "NÚMERO"
  | .complemento => "COMPLEMENTO"
  | .cep => "CEP"
  | .bairro => "BAIRRO/DISTRITO"
  | .municipio => "MUNICÍPIO"
  | .uf => "UF"
  | .telefone => "TELEFONE"
  | .sit_cadastral => "SITUAÇÃO CADASTRAL"
  | .sit_data => "DATA DA SITUAÇÃO CADASTRAL"

/-- The 15 targets of the `field_map` dict, in declaration order. -/
def fieldTargets : List FieldTarget :=
  [.cnpj_numero, .cnpj_data_abertura, .razao_social, .nome_fantasia, .porte,
   .logradouro, .end_numero, .complemento, .cep, .bairro, .municipio, .uf,
   .telefone, .sit_cadastral, .sit_data]

/-- `field_map` lookup (the dict of `extract_from_text`): a line maps to
a target iff it equals that target's label exactly. -/
def field_map (line : String) : Option FieldTarget :=
  fieldTargets.find? (fun t => line = labelOf t)


def natHdr : String := "CÓDIGO E DESCRIÇÃO DA NATUREZA JURÍDICA"
def prinHdr : String := "CÓDIGO E DESCRIÇÃO DA ATIVIDADE ECONÔMICA PRINCIPAL"
def secHdr : String := "CÓDIGO E DESCRIÇÃO DAS ATIVIDADES ECONÔMICAS SECUNDÁRIAS"

/-- Inner `while` of the secondary-activities branch: consume the lines
after the header while each contains `" - "` and no stop marker. -/
def collectSec : List String → List Atividade
  | [] => []
  | l :: ls =>
    if strContains l " - " then
      if strContains l "NATUREZA JURÍDICA" || strContains l "LOGRADOURO" then []
      else
        let p := (strSplitOnce l " - ").getD (l, "")
        { codigo := p.1, descricao := p.2 } :: collectSec ls
    else []

/-- One iteration of the extraction loop: `line` is the current (trimmed,
non-empty) line, `next` the following one (`""` past the end), `rest` the
lines after `line` (used by the secondary-activities branch). -/
def step (line next : String) (rest : List String) (d : CNPJData) : CNPJData :=
  match field_map line with
  | some t =>
    if next ≠ "" ∧ field_map next = none then
      if t = .end_numero ∧ d.endereco.numero ≠ "" then d
      else setTarget d t next
    else d
  | none =>
    if line = "MATRIZ" then { d with cnpj := { d.cnpj with tipo := "MATRIZ" } }
    else if line = "FILIAL" then { d with cnpj := { d.cnpj with tipo := "FILIAL" } }
    else if strContains line natHdr ∧ next ≠ "" then
      if strContains next " - " then
        let p := (strSplitOnce next " - ").getD (next, "")
        { d with empresa := { d.empresa with
                              natureza_juridica := { codigo := p.1, descricao := p.2 } } }
      else d
    else if strContains line prinHdr ∧ next ≠ "" then
      if strContains next " - " then
        let p := (strSplitOnce next " - ").getD (next, "")
        { d with atividades := { d.atividades with
                                 principal := { codigo := p.1, descricao := p.2 } } }
      else d
    else if strContains line secHdr then
      { d with atividades := { d.atividades with
                               secundarias := d.atividades.secundarias ++ collectSec rest } }
    else if strContains line "Emitido no dia" then
      match findStamp line.data with
      | some g => { d with comprovante := { data_emissao := g.1, hora_emissao := g.2 } }
      | none => d
    else d

/-- The scan over all lines. -/
def scanLines : List String → CNPJData → CNPJData
  | [], d => d
  | l :: rest, d => scanLines rest (step l (rest.headD "") rest d)

/-- `lines = [line.strip() for line in text.split('\n') if line.strip()]`. -/
def cleanLines (text : String) : List String :=
  ((strLines text).map strTrim).filter (fun l => l ≠ "")

/-- `CNPJDataExtractor.extract_from_text`; `now` is the clock reading used
for `metadados.timestamp`. -/
def extract_from_text (now text : String) : CNPJData :=
  scanLines (cleanLines text) (initData now)

/-! ## Exception-aware variant of the extractor

The source's only partial operations are the two-target tuple unpackings
`codigo, desc = x.split(" - ", 1)` (a `ValueError` when the separator is
absent). This variant turns each such unpacking into an `Except` error
instead of relying on the guards; proving it never errs shows the source's
guards make `extract_from_text` total. -/

def splitOnceE (s sep : String) : Except String (String × String) :=
  match strSplitOnce s sep with
  | some p => .ok p
  | none => .error "not enough values to unpack"

def collectSecE : List String → Except String (List Atividade)
  | [] => .ok []
  | l :: ls =>
    if strContains l " - " then
      if strContains l "NATUREZA JURÍDICA" || strContains l "LOGRADOURO" then .ok []
      else do
        let p ← splitOnceE l " - "
        let r ← collectSecE ls
        return { codigo := p.1, descricao := p.2 } :: r
    else .ok []

def stepE (line next : String) (rest : List String) (d : CNPJData) :
    Except String CNPJData :=
  match field_map line with
  | some t =>
    if next ≠ "" ∧ field_map next = none then
      if t = .end_numero ∧ d.endereco.numero ≠ "" then .ok d
      else .ok (setTarget d t next)
    else .ok d
  | none =>
    if line = "MATRIZ" then .ok { d with cnpj := { d.cnpj with tipo := "MATRIZ" } }
    else if line = "FILIAL" then .ok { d with cnpj := { d.cnpj with tipo := "FILIAL" } }
    else if strContains line natHdr ∧ next ≠ "" then
      if strContains next " - " then do
        let p ← splitOnceE next " - "
        return { d with empresa := { d.empresa with
                              natureza_juridica := { codigo := p.1, descricao := p.2 } } }
      else .ok d
    else if strContains line prinHdr ∧ next ≠ "" then
      if strContains next " - " then do
        let p ← splitOnceE next " - "
        return { d with atividades := { d.atividades with
                                 principal := { codigo := p.1, descricao := p.2 } } }
      else .ok d
    else if strContains line secHdr then do
      let s ← collectSecE rest
      return { d with atividades := { d.atividades with
                               secundarias := d.atividades.secundarias ++ s } }
    else if strContains line "Emitido no dia" then
      match findStamp line.data with
      | some g => .ok { d with comprovante := { data_emissao := g.1, hora_emissao := g.2 } }
      | none => .ok d
    else .ok d

def scanLinesE : List String → CNPJData → Except String CNPJData
  | [], d => .ok d
  | l :: rest, d => do
    let d' ← stepE l (rest.headD "") rest d
    scanLinesE rest d'

def extract_from_textE (now text : String) : Except String CNPJData :=
  scanLinesE (cleanLines text) (initData now)

/-! ## The coordinator (`CNPJConsultorV2`) -/

/-- `_clean_cnpj`: strip non-digits, demand exactly 14. -/
def clean_cnpj (cnpj : String) : Except String String :=
  let clean := digitsOf cnpj
  if clean.length = 14 then .ok clean
  else .error ("CNPJ inválido: " ++ cnpj)

/-- `metadados` sub-dict of `_error_response`. -/
structure ErrMeta where
  sucesso : Bool
  timestamp : String
deriving DecidableEq, Repr

/-- The terminal failure record `{erro, metadados:{sucesso, timestamp}}`. -/
structure ErrorResponse where
  erro : String
  metadados : ErrMeta
deriving DecidableEq, Repr

/-- `_error_response`. -/
def error_response (now err : String) : ErrorResponse :=
  { erro := err, metadados := { sucesso := false, timestamp := now } }

/-- What a `consultar` call hands back when it does not raise. -/
inductive ConsultOutput where
  | record : CNPJData → ConsultOutput
  | failure : ErrorResponse → ConsultOutput
deriving DecidableEq, Repr

/-- Observable side effects of one `consultar` call. -/
inductive Ev where
  | cacheRead
  | cacheWrite
  | attempt : Nat → Ev
  | sessionSetup
  | captchaSolve
  | submitQuery
  | extractCall
  | sleep : Nat → Ev
deriving DecidableEq, Repr

/-- Outcome of one `_perform_consultation` attempt, as decided by the
external world: which stage fails first (raising), or the body text and
final URL of the result page when every stage succeeds. -/
inductive PerformOutcome where
  | setupFail : String → PerformOutcome
  | navFail : String → PerformOutcome
  | captchaFail : String → PerformOutcome
  | submitFail : String → PerformOutcome
  | pageText : String → String → PerformOutcome
deriving DecidableEq, Repr

def outcomeFails : PerformOutcome → Bool
  | .pageText _ _ => false
  | _ => true

def failMsg : PerformOutcome → String
  | .setupFail m => m
  | .navFail m => m
  | .captchaFail m => m
  | .submitFail m => m
  | .pageText _ _ => ""

/-- `_perform_consultation`: the events of the stages reached, and either
the extracted record (with `url_consulta` added) or the raised message. -/
def perform_consultation (now : String) (o : PerformOutcome) :
    List Ev × Except String CNPJData :=
  match o with
  | .setupFail m => ([.sessionSetup], .error m)
  | .navFail m => ([.sessionSetup], .error m)
  | .captchaFail m => ([.sessionSetup, .captchaSolve], .error m)
  | .submitFail m => ([.sessionSetup, .captchaSolve, .submitQuery], .error m)
  | .pageText txt url =>
    let d := extract_from_text now txt
    ([.sessionSetup, .captchaSolve, .submitQuery, .extractCall],
     .ok { d with metadados := { d.metadados with url_consulta := some url } })

/-- The environment a `consultar` call runs in: the clock (string form and
epoch form), the cache contents keyed by cleaned id (`none` covers a
missing, unreadable or corrupt file; the `Int` is the parsed stored
timestamp), and the outcome of each pipeline attempt. -/
structure Env where
  now : String
  nowT : Int
  cache : String → Option (CNPJData × Int)
  perform : Nat → PerformOutcome

/-- `_get_cache`: a hit only when the entry parses and is younger than 24h. -/
def get_cache (env : Env) (c : String) : Option CNPJData :=
  match env.cache c with
  | some (d, t) => if env.nowT - t < 86400 then some d else none
  | none => none

/-- The retry loop of `consultar` over the remaining attempt indices. -/
def consultAttempts (env : Env) (useCache : Bool) :
    List Nat → List Ev → Except String ConsultOutput × List Ev
  | [], acc =>
    (.ok (.failure (error_response env.now "Máximo de tentativas excedido")), acc)
  | k :: ks, acc =>
    let (evs, r) := perform_consultation env.now (env.perform k)
    let acc2 := acc ++ .attempt k :: evs
    match r with
    | .ok d =>
      if d.metadados.sucesso && useCache then (.ok (.record d), acc2 ++ [.cacheWrite])
      else (.ok (.record d), acc2)
    | .error e =>
      match ks with
      | [] => (.ok (.failure (error_response env.now e)), acc2)
      | _ :: _ => consultAttempts env useCache ks (acc2 ++ [.sleep 10])

/-- `CNPJConsultorV2.consultar`: returns the outcome (`Except.error` for
the synchronous `ValueError`) together with the trace of effects. -/
def consultar (env : Env) (cnpj : String) (useCache : Bool) :
    Except String ConsultOutput × List Ev :=
  match clean_cnpj cnpj with
  | .error m => (.error m, [])
  | .ok c =>
    if useCache then
      match get_cache env c with
      | some d => (.ok (.record d), [.cacheRead])
      | none => consultAttempts env useCache [0, 1, 2] [.cacheRead]
    else consultAttempts env useCache [0, 1, 2] []

/-! ## The captcha wait loop (`SolveCaptchaClient._wait_solution`) -/

/-- One poll of `res.php` as the service answers it: solved (token),
not ready yet, an explicit other status, or a raised transport error. -/
inductive PollResult where
  | success : String → PollResult
  | notReady
  | other : String → PollResult
  | exn : String → PollResult
deriving DecidableEq, Repr

structure WaitRun where
  res : Option String
  polls : Nat
  sleeps : List Nat
deriving DecidableEq, Repr

/-- `_wait_solution`: `resp k` is the service's k-th answer, `timeout` the
deadline, `k` the polls made so far and `elapsed` the clock advance so far
(each continuing iteration sleeps 3, or 5 after a transport error). -/
def wait_solution (resp : Nat → PollResult) (timeout : Nat) :
    Nat → Nat → WaitRun
  | k, elapsed =>
    if h : elapsed < timeout then
      match resp k with
      | .success tok => { res := some tok, polls := 1, sleeps := [] }
      | .other _ => { res := none, polls := 1, sleeps := [] }
      | .notReady =>
        let w := wait_solution resp timeout (k + 1) (elapsed + 3)
        { res := w.res, polls := w.polls + 1, sleeps := 3 :: w.sleeps }
      | .exn _ =>
        let w := wait_solution resp timeout (k + 1) (elapsed + 5)
        { res := w.res, polls := w.polls + 1, sleeps := 5 :: w.sleeps }
    else { res := none, polls := 0, sleeps := [] }
  termination_by _ elapsed => timeout - elapsed
  decreasing_by all_goals omega

/-! ## The legacy extractor (`CNPJConsultor._processar_dados` of `main.py`)

Same sections as `CNPJData` but no `metadados` (that dict is attached by
`_extrair_dados`, the caller). Lines are kept raw and stripped on use;
the value of a label is the next non-blank line. -/

structure MainData where
  cnpj : CnpjSec
  empresa : Empresa
  atividades : Atividades
  endereco : Endereco
  contato : Contato
  situacao : Situacao
  comprovante : Comprovante
deriving DecidableEq, Repr

def initMainData : MainData :=
  { cnpj := { numero := "", tipo := "", data_abertura := "" }
    empresa := { razao_social := "", nome_fantasia := "", porte := ""
                 natureza_juridica := { codigo := "", descricao := "" } }
    atividades := { principal := { codigo := "", descricao := "" }, secundarias := [] }
    endereco := { logradouro := "", numero := "", complemento := "", cep := ""
                  bairro := "", municipio := "", uf := "" }
    contato := { email := "", telefone := "" }
    situacao := { cadastral := "", data_situacao := "", motivo := ""
                  situacao_especial := "", data_situacao_especial := "" }
    comprovante := { data_emissao := "", hora_emissao := "" } }

/-- `proxima_linha`: first line after the current one whose strip is
non-empty, stripped; `""` past the end. -/
def prox (rest : List String) : String :=
  match rest.dropWhile (fun l => strTrim l = "") with
  | [] => ""
  | x :: _ => strTrim x

/-- Inner `while` of the secondary-activities branch of `main.py`:
blank lines are skipped, a stop-marker line ends the scan, a line with
`" - "` is appended, any other line is skipped. -/
def mcollectSec : List String → List Atividade
  | [] => []
  | l :: ls =>
    let la := strTrim l
    if la = "" then mcollectSec ls
    else if strContains la "CÓDIGO E DESCRIÇÃO" || strContains la "LOGRADOURO"
            || strContains la "NATUREZA JURÍDICA" then []
    else if strContains la " - " then
      let p := (strSplitOnce la " - ").getD (la, "")
      { codigo := p.1, descricao := p.2 } :: mcollectSec ls
    else mcollectSec ls

/-- Which `elif` branch of `_processar_dados`' loop fired, with the raw
value(s) that branch reads. `nop` means no branch matched. -/
inductive MAct where
  | nop
  | inscricao : String → Option String → MAct
  | abertura : String → MAct
  | razao : String → MAct
  | fantasia : String → MAct
  | porte : String → MAct
  | natureza : String → MAct
  | principal : String → MAct
  | secundarias : List Atividade → MAct
  | logradouro : String → MAct
  | numero : String → MAct
  | bairro : String → MAct
  | municipio : String → MAct
  | uf : String → MAct
  | cep : String → MAct
  | telefone : String → MAct
  | cadastral : String → MAct
  | dataSituacao : String → MAct
  | motivo : String → MAct
  | sitEspecial : String → MAct
  | dataEspecial : String → MAct
  | emitido : String → MAct
deriving DecidableEq, Repr

/-- The `elif` chain of `_processar_dados`: `l` is the stripped current
line, `rest` the raw lines after it, `numeroEmpty` whether
`dados["endereco"]["numero"]` is still empty (the only record state the
branch conditions read). -/
def mclassify (l : String) (rest : List String) (numeroEmpty : Bool) : MAct :=
  if strContains l "NÚMERO DE INSCRIÇÃO" then
    .inscricao (prox rest)
      (match rest.get? 1 with
       | some x =>
         if strContains x "MATRIZ" then some "MATRIZ"
         else if strContains x "FILIAL" then some "FILIAL"
         else none
       | none => none)
  else if strContains l "DATA DE ABERTURA" then .abertura (prox rest)
  else if strContains l "NOME EMPRESARIAL" then .razao (prox rest)
  else if strContains l "TÍTULO DO ESTABELECIMENTO (NOME DE FANTASIA)" then
    .fantasia (prox rest)
  else if strContains l "PORTE" && decide (l.length < 20) then .porte (prox rest)
  else if strContains l "CÓDIGO E DESCRIÇÃO DA NATUREZA JURÍDICA" then
    .natureza (prox rest)
  else if strContains l "CÓDIGO E DESCRIÇÃO DA ATIVIDADE ECONÔMICA PRINCIPAL" then
    .principal (prox rest)
  else if strContains l "CÓDIGO E DESCRIÇÃO DAS ATIVIDADES ECONÔMICAS SECUNDÁRIAS" then
    .secundarias (mcollectSec rest)
  else if strContains l "LOGRADOURO" then .logradouro (prox rest)
  else if strContains l "NÚMERO" && numeroEmpty then .numero (prox rest)
  else if strContains l "BAIRRO/DISTRITO" then .bairro (prox rest)
  else if strContains l "MUNICÍPIO" then .municipio (prox rest)
  else if strContains l "UF" && decide (l.length < 10) then .uf (prox rest)
  else if strContains l "CEP" then .cep (prox rest)
  else if strContains l "TELEFONE" then .telefone (prox rest)
  else if l = "SITUAÇÃO CADASTRAL" then .cadastral (prox rest)
  else if strContains l "DATA DA SITUAÇÃO CADASTRAL" then .dataSituacao (prox rest)
  else if strContains l "MOTIVO DE SITUAÇÃO CADASTRAL" then .motivo (prox rest)
  else if l = "SITUAÇÃO ESPECIAL" then .sitEspecial (prox rest)
  else if strContains l "DATA DA SITUAÇÃO ESPECIAL" then .dataEspecial (prox rest)
  else if strContains l "Emitido no dia" then .emitido l
  else .nop

/-- The body of each branch of `_processar_dados`: the value guards and
the dict writes. -/
def mapply (d : MainData) : MAct → MainData
  | .nop => d
  | .inscricao num t =>
    let d1 := { d with cnpj := { d.cnpj with numero := num } }
    match t with
    | some tp => { d1 with cnpj := { d1.cnpj with tipo := tp } }
    | none => d1
  | .abertura v => { d with cnpj := { d.cnpj with data_abertura := v } }
  | .razao v => { d with empresa := { d.empresa with razao_social := v } }
  | .fantasia v => { d with empresa := { d.empresa with nome_fantasia := v } }
  | .porte v => { d with empresa := { d.empresa with porte := v } }
  | .natureza nat =>
    if strContains nat " - " then
      let p := (strSplitOnce nat " - ").getD (nat, "")
      { d with empresa := { d.empresa with
                            natureza_juridica := { codigo := p.1, descricao := p.2 } } }
    else d
  | .principal ativ =>
    if strContains ativ " - " then
      let p := (strSplitOnce ativ " - ").getD (ativ, "")
      { d with atividades := { d.atividades with
                               principal := { codigo := p.1, descricao := p.2 } } }
    else d
  | .secundarias acts =>
    { d with atividades := { d.atividades with
                             secundarias := d.atividades.secundarias ++ acts } }
  | .logradouro v => { d with endereco := { d.endereco with logradouro := v } }
  | .numero v => { d with endereco := { d.endereco with numero := v } }
  | .bairro v => { d with endereco := { d.endereco with bairro := v } }
  | .municipio v => { d with endereco := { d.endereco with municipio := v } }
  | .uf v => { d with endereco := { d.endereco with uf := v } }
  | .cep v => { d with endereco := { d.endereco with cep := v } }
  | .telefone v =>
    if v ≠ "" && v ≠ "********" then
      { d with contato := { d.contato with telefone := v } }
    else d
  | .cadastral v =>
    if v ≠ "" && v ≠ "DATA DA SITUAÇÃO CADASTRAL" && v ≠ "MOTIVO" then
      { d with situacao := { d.situacao with cadastral := v } }
    else d
  | .dataSituacao v =>
    if v ≠ "" && strContains v "/" then
      { d with situacao := { d.situacao with data_situacao := v } }
    else d
  | .motivo v =>
    if v ≠ "" && v ≠ "********" && strTrim v ≠ "" then
      { d with situacao := { d.situacao with motivo := v } }
    else d
  | .sitEspecial v =>
    if v ≠ "" && v ≠ "********" && strTrim v ≠ "" then
      { d with situacao := { d.situacao with situacao_especial := v } }
    else d
  | .dataEspecial v =>
    if v ≠ "" && v ≠ "********" && strContains v "/" then
      { d with situacao := { d.situacao with data_situacao_especial := v } }
    else d
  | .emitido line =>
    match findStamp line.data with
    | some g => { d with comprovante := { data_emissao := g.1, hora_emissao := g.2 } }
    | none => d

/-- One iteration of `_processar_dados`' loop. -/
def mstep (l : String) (rest : List String) (d : MainData) : MainData :=
  mapply d (mclassify l rest (d.endereco.numero = ""))

def mscanLines : List String → MainData → MainData
  | [], d => d
  | l :: rest, d => mscanLines rest (mstep (strTrim l) rest d)

/-- `CNPJConsultor._processar_dados`. -/
def processar_dados (texto : String) : MainData :=
  mscanLines (strLines texto) initMainData

/-! ## Auxiliary definitions for the claims -/

/-- Count the attempt markers in a trace. -/
def countAttempts (tr : List Ev) : Nat :=
  (tr.filter fun e => match e with | .attempt _ => true | _ => false).length

/-- A concrete environment whose every attempt fails at browser setup. -/
def envFail : Env :=
  { now := "T", nowT := 0, cache := fun _ => none, perform := fun _ => .setupFail "boom" }

/-- A concrete environment holding one fresh cache entry. -/
def envCached : Env :=
  { now := "T", nowT := 1000
    cache := fun c => if c = "11111111111111" then some (initData "S", 900) else none
    perform := fun _ => .setupFail "boom" }

/-- A concrete environment whose first attempt reaches the result page,
with empty body text and final URL "u". -/
def envOk : Env :=
  { now := "T", nowT := 0, cache := fun _ => none, perform := fun _ => .pageText "" "u" }

/-- The five-line scenario of the claim. -/
def secText : String :=
  "CÓDIGO E DESCRIÇÃO DAS ATIVIDADES ECONÔMICAS SECUNDÁRIAS\n01.01-1 - A\n02.02-2 - B\nLOGRADOURO\nRua X"


/-! ## Coordinator lemmas and claims C1, C2, C8 -/

theorem consultAttempts_all_fail (env : Env) (useCache : Bool) (acc : List Ev)
    (hfail : ∀ k, k < 3 → outcomeFails (env.perform k) = true) :
    (consultAttempts env useCache [0, 1, 2] acc).1
        = .ok (.failure (error_response env.now (failMsg (env.perform 2))))
    ∧ countAttempts (consultAttempts env useCache [0, 1, 2] acc).2
        = countAttempts acc + 3 := by
  have h0 := hfail 0 (by omega)
  have h1 := hfail 1 (by omega)
  have h2 := hfail 2 (by omega)
  cases p0 : env.perform 0 <;> rw [p0] at h0 <;> simp [outcomeFails] at h0 <;>
    cases p1 : env.perform 1 <;> rw [p1] at h1 <;> simp [outcomeFails] at h1 <;>
      cases p2 : env.perform 2 <;> rw [p2] at h2 <;> simp [outcomeFails] at h2 <;>
        simp [consultAttempts, perform_consultation, p0, p1, p2, failMsg,
          countAttempts, List.filter_append]

/-- C1: for every input string, `consultar` first strips non-digits; when
the result is not 14 characters long it raises `ValueError` at once, with
an empty effect trace: no cache read, no session, no challenge solving,
no attempt, no retry. -/
theorem C1_invalid_id_synchronous (env : Env) (cnpj : String) (useCache : Bool)
    (h : (digitsOf cnpj).length ≠ 14) :
    consultar env cnpj useCache = (.error ("CNPJ inválido: " ++ cnpj), []) := by
  unfold consultar clean_cnpj
  simp [h]

/-- Witness for C1 at the concrete input "123". -/
theorem C1_invalid_id_synchronous_witness :
    (digitsOf "123").length ≠ 14 ∧
      consultar envFail "123" true = (.error ("CNPJ inválido: " ++ "123"), []) :=
  ⟨by decide, C1_invalid_id_synchronous _ "123" true (by decide)⟩

/-- C2: for a 14-digit id, when the cache does not answer and every
pipeline attempt fails, `consultar` performs exactly 3 attempts, never
raises, and returns the terminal failure record
`{erro, metadados := {sucesso := false, timestamp}}`. -/
theorem C2_retry_ceiling (env : Env) (cnpj : String) (useCache : Bool)
    (h14 : (digitsOf cnpj).length = 14)
    (hmiss : useCache = false ∨ get_cache env (digitsOf cnpj) = none)
    (hfail : ∀ k, k < 3 → outcomeFails (env.perform k) = true) :
    (consultar env cnpj useCache).1
        = .ok (.failure { erro := failMsg (env.perform 2),
                          metadados := { sucesso := false, timestamp := env.now } })
    ∧ countAttempts (consultar env cnpj useCache).2 = 3 := by
  unfold consultar clean_cnpj
  rcases hmiss with hu | hm
  · subst hu
    have key := consultAttempts_all_fail env false [] hfail
    simpa [h14, error_response, countAttempts] using key
  · cases useCache
    · have key := consultAttempts_all_fail env false [] hfail
      simpa [h14, error_response, countAttempts] using key
    · have key := consultAttempts_all_fail env true [.cacheRead] hfail
      simpa [h14, hm, error_response, countAttempts] using key

/-- Witness for C2: every attempt fails with "boom". -/
theorem C2_retry_ceiling_witness :
    (consultar envFail "11111111111111" true).1
        = .ok (.failure { erro := "boom",
                          metadados := { sucesso := false, timestamp := "T" } })
    ∧ countAttempts (consultar envFail "11111111111111" true).2 = 3 :=
  C2_retry_ceiling _ "11111111111111" true (by decide)
    (Or.inr rfl) (fun k _ => rfl)

/-- C8: a fresh cache entry (stored timestamp within 24h of now) makes
`consultar` with `use_cache = true` return the stored record verbatim,
with a trace containing only the cache read: no session, no challenge,
no extraction, no attempt. -/
theorem C8_cache_hit (env : Env) (cnpj : String) (d : CNPJData) (t : Int)
    (h14 : (digitsOf cnpj).length = 14)
    (hc : env.cache (digitsOf cnpj) = some (d, t))
    (hf : env.nowT - t < 86400) :
    consultar env cnpj true = (.ok (.record d), [.cacheRead]) := by
  unfold consultar clean_cnpj get_cache
  simp [h14, hc, hf]

/-- Witness for C8 with a concrete cached record stored 100s ago. -/
theorem C8_cache_hit_witness :
    consultar envCached "11111111111111" true
      = (.ok (.record (initData "S")), [.cacheRead]) :=
  C8_cache_hit _ "11111111111111" (initData "S") 900 (by decide)
    (by decide) (by decide)

/-! ## Wait-loop lemmas and claim C9 -/

theorem wait_solution_of_timeout (resp : Nat → PollResult) (timeout k e : Nat)
    (h : timeout ≤ e) :
    wait_solution resp timeout k e = { res := none, polls := 0, sleeps := [] } := by
  unfold wait_solution
  simp [Nat.not_lt.mpr h]

theorem wait_solution_struct (resp : Nat → PollResult) (timeout : Nat) :
    ∀ n k e, timeout - e ≤ n →
      3 * (wait_solution resp timeout k e).polls ≤ (timeout - e) + 3
      ∧ (wait_solution resp timeout k e).sleeps.length
          ≤ (wait_solution resp timeout k e).polls
      ∧ (wait_solution resp timeout k e).polls
          ≤ (wait_solution resp timeout k e).sleeps.length + 1
      ∧ (∀ s ∈ (wait_solution resp timeout k e).sleeps, s = 3 ∨ s = 5) := by
  intro n
  induction n with
  | zero =>
    intro k e h
    rw [wait_solution_of_timeout resp timeout k e (by omega)]
    simp
  | succ n ih =>
    intro k e h
    by_cases he : e < timeout
    · rw [wait_solution]
      simp only [he, dif_pos]
      cases hr : resp k <;> dsimp only
      · -- success
        exact ⟨by omega, by simp, by simp, by simp⟩
      · -- notReady
        obtain ⟨b1, b2, b3, b4⟩ := ih (k + 1) (e + 3) (by omega)
        refine ⟨?_, by simp only [List.length_cons]; omega,
          by simp only [List.length_cons]; omega, ?_⟩
        · by_cases hstop : timeout ≤ e + 3
          · rw [wait_solution_of_timeout resp timeout (k + 1) (e + 3) hstop]
            dsimp only
            omega
          · omega
        · intro s hs
          rcases List.mem_cons.mp hs with hs | hs
          · exact Or.inl hs
          · exact b4 s hs
      · -- other
        exact ⟨by omega, by simp, by simp, by simp⟩
      · -- exn
        obtain ⟨b1, b2, b3, b4⟩ := ih (k + 1) (e + 5) (by omega)
        refine ⟨?_, by simp only [List.length_cons]; omega,
          by simp only [List.length_cons]; omega, ?_⟩
        · by_cases hstop : timeout ≤ e + 5
          · rw [wait_solution_of_timeout resp timeout (k + 1) (e + 5) hstop]
            dsimp only
            omega
          · omega
        · intro s hs
          rcases List.mem_cons.mp hs with hs | hs
          · exact Or.inr hs
          · exact b4 s hs
    · rw [wait_solution_of_timeout resp timeout k e (by omega)]
      simp

theorem wait_solution_all_notReady (resp : Nat → PollResult)
    (hnr : ∀ k, resp k = .notReady) (timeout : Nat) :
    ∀ n k e, timeout - e ≤ n → (wait_solution resp timeout k e).res = none := by
  intro n
  induction n with
  | zero =>
    intro k e h
    rw [wait_solution_of_timeout resp timeout k e (by omega)]
  | succ n ih =>
    intro k e h
    by_cases he : e < timeout
    · rw [wait_solution]
      simp only [he, dif_pos, hnr k]
      exact ih (k + 1) (e + 3) (by omega)
    · rw [wait_solution_of_timeout resp timeout k e (by omega)]

theorem wait_solution_success_run (resp : Nat → PollResult) (timeout : Nat)
    (tok : String) :
    ∀ n k e, (∀ j, j < n → resp (k + j) = .notReady) → resp (k + n) = .success tok →
      e + 3 * n < timeout →
      wait_solution resp timeout k e
        = { res := some tok, polls := n + 1, sleeps := List.replicate n 3 } := by
  intro n
  induction n with
  | zero =>
    intro k e _ hs he
    rw [wait_solution]
    simp only [show e < timeout by omega, dif_pos]
    rw [show k + 0 = k from rfl] at hs
    rw [hs]
    rfl
  | succ n ih =>
    intro k e hnr hs he
    rw [wait_solution]
    simp only [show e < timeout by omega, dif_pos]
    have h0 : resp k = .notReady := by
      have := hnr 0 (by omega)
      simpa using this
    rw [h0]
    have hrec := ih (k + 1) (e + 3)
      (fun j hj => by
        have := hnr (j + 1) (by omega)
        rwa [show k + (j + 1) = k + 1 + j by omega] at this)
      (by rwa [show k + 1 + n = k + (n + 1) by omega])
      (by omega)
    rw [hrec]
    simp [List.replicate_succ]

/-- C9: the captcha wait loop always terminates, with at most
`timeout / 3 + 1` polls; it sleeps 3 or 5 units between any two
consecutive polls (never spins); when the service never becomes ready it
ends with `None`; the first explicit non-ready error status ends the loop
at once with `None`; and as soon as the service reports success the token
is returned, after exactly one poll past the waiting prefix. -/
theorem C9_wait_loop (resp : Nat → PollResult) (timeout : Nat) :
    3 * (wait_solution resp timeout 0 0).polls ≤ timeout + 3
    ∧ (wait_solution resp timeout 0 0).sleeps.length
        ≤ (wait_solution resp timeout 0 0).polls
    ∧ (wait_solution resp timeout 0 0).polls
        ≤ (wait_solution resp timeout 0 0).sleeps.length + 1
    ∧ (∀ s ∈ (wait_solution resp timeout 0 0).sleeps, s = 3 ∨ s = 5)
    ∧ ((∀ k, resp k = .notReady) → (wait_solution resp timeout 0 0).res = none)
    ∧ (∀ m, resp 0 = .other m → 0 < timeout →
        wait_solution resp timeout 0 0 = { res := none, polls := 1, sleeps := [] })
    ∧ (∀ n tok, (∀ j, j < n → resp j = .notReady) → resp n = .success tok →
        3 * n < timeout →
        wait_solution resp timeout 0 0
          = { res := some tok, polls := n + 1, sleeps := List.replicate n 3 }) := by
  have hstruct := wait_solution_struct resp timeout (timeout - 0) 0 0 (le_refl _)
  refine ⟨by simpa using hstruct.1, hstruct.2.1, hstruct.2.2.1, hstruct.2.2.2, ?_, ?_, ?_⟩
  · intro hnr
    exact wait_solution_all_notReady resp hnr timeout (timeout - 0) 0 0 (le_refl _)
  · intro m hm ht
    rw [wait_solution]
    simp only [ht, dif_pos, hm]
  · intro n tok hnr hs he
    exact wait_solution_success_run resp timeout tok n 0 0
      (fun j hj => by simpa using hnr j hj) (by simpa using hs) (by omega)

/-- Witness for C9: two not-ready polls then success, within the deadline. -/
theorem C9_wait_loop_witness :
    wait_solution (fun k => if k < 2 then .notReady else .success "tok") 10 0 0
      = { res := some "tok", polls := 3, sleeps := [3, 3] } := by
  have h := (C9_wait_loop (fun k => if k < 2 then .notReady else .success "tok") 10).2.2.2.2.2.2
    2 "tok" (by decide) (by decide) (by decide)
  simpa using h

/-! ## Frame lemmas for the V2 extractor -/

theorem setTarget_frame (d : CNPJData) (t : FieldTarget) (v : String) :
    (setTarget d t v).situacao.motivo = d.situacao.motivo
    ∧ (setTarget d t v).situacao.situacao_especial = d.situacao.situacao_especial
    ∧ (setTarget d t v).situacao.data_situacao_especial = d.situacao.data_situacao_especial
    ∧ (setTarget d t v).metadados = d.metadados := by
  cases t <;> exact ⟨rfl, rfl, rfl, rfl⟩

theorem step_frame (l n : String) (rest : List String) (d : CNPJData) :
    (step l n rest d).situacao.motivo = d.situacao.motivo
    ∧ (step l n rest d).situacao.situacao_especial = d.situacao.situacao_especial
    ∧ (step l n rest d).situacao.data_situacao_especial = d.situacao.data_situacao_especial
    ∧ (step l n rest d).metadados = d.metadados := by
  unfold step
  cases hfm : field_map l <;> dsimp only
  · split_ifs <;>
      first
        | exact ⟨rfl, rfl, rfl, rfl⟩
        | (cases findStamp l.data <;> exact ⟨rfl, rfl, rfl, rfl⟩)
  · split_ifs <;>
      first
        | exact ⟨rfl, rfl, rfl, rfl⟩
        | exact setTarget_frame d _ n

theorem scanLines_frame (ls : List String) (d : CNPJData) :
    (scanLines ls d).situacao.motivo = d.situacao.motivo
    ∧ (scanLines ls d).situacao.situacao_especial = d.situacao.situacao_especial
    ∧ (scanLines ls d).situacao.data_situacao_especial = d.situacao.data_situacao_especial
    ∧ (scanLines ls d).metadados = d.metadados := by
  induction ls generalizing d with
  | nil => exact ⟨rfl, rfl, rfl, rfl⟩
  | cons l rest ih =>
    have hs := step_frame l (rest.headD "") rest d
    have hi := ih (step l (rest.headD "") rest d)
    exact ⟨hi.1.trans hs.1, hi.2.1.trans hs.2.1,
      hi.2.2.1.trans hs.2.2.1, hi.2.2.2.trans hs.2.2.2⟩

theorem extract_metadados (now text : String) :
    (extract_from_text now text).metadados
      = { timestamp := now, sucesso := true, url_consulta := none } :=
  (scanLines_frame (cleanLines text) (initData now)).2.2.2

theorem setTarget_meta_comm (d : CNPJData) (t : FieldTarget) (v : String) (M : Metadados) :
    setTarget { d with metadados := M } t v = { setTarget d t v with metadados := M } := by
  cases t <;> rfl

theorem step_meta_comm (l n : String) (rest : List String) (d : CNPJData) (M : Metadados) :
    step l n rest { d with metadados := M } = { step l n rest d with metadados := M } := by
  unfold step
  cases hfm : field_map l <;> dsimp only
  · split_ifs <;>
      first
        | rfl
        | (cases findStamp l.data <;> rfl)
  · split_ifs <;>
      first
        | rfl
        | exact setTarget_meta_comm d _ n M

theorem scanLines_meta_comm (ls : List String) (d : CNPJData) (M : Metadados) :
    scanLines ls { d with metadados := M } = { scanLines ls d with metadados := M } := by
  induction ls generalizing d with
  | nil => rfl
  | cons l rest ih =>
    show scanLines rest (step l (rest.headD "") rest { d with metadados := M }) = _
    rw [step_meta_comm, ih]
    rfl

/-! ## Claim C4: extraction determinism -/

/-- C4 counterexample: two calls of the extractor on the identical (empty)
text, at different clock readings, give records that are not byte-identical:
`metadados.timestamp` differs. -/
theorem C4_determinism_counterexample :
    extract_from_text "A" "" ≠ extract_from_text "B" "" := by
  decide

/-- C4 amended: the extraction is deterministic in the text and the clock,
and the clock influences only `metadados.timestamp`: every other field of
two extractions of the same text is identical, `metadados.sucesso` is
always `true` and `metadados.url_consulta` always absent. -/
theorem C4_determinism_amended (n1 n2 text : String) :
    extract_from_text n1 text
      = { extract_from_text n2 text with
          metadados := { timestamp := n1, sucesso := true, url_consulta := none } } := by
  unfold extract_from_text
  have h : initData n1
      = { initData n2 with
          metadados := { timestamp := n1, sucesso := true, url_consulta := none } } := rfl
  rw [h, scanLines_meta_comm]

/-! ## Claim C5: who sets `metadata.success` -/

/-- C5 counterexample: the V2 extractor itself already sets
`metadados.sucesso = true` in the record it builds, and on a successful
consultation the coordinator returns exactly that extractor-built value
(only `url_consulta` is added). -/
theorem C5_success_counterexample :
    (extract_from_text "T" "").metadados.sucesso = true
    ∧ (consultar envOk "11111111111111" false).1
        = .ok (.record { extract_from_text "T" "" with
            metadados := { timestamp := "T", sucesso := true, url_consulta := some "u" } }) := by
  constructor
  · rfl
  · rfl

/-- C5 amended: the extractor sets `metadados.sucesso` (always to `true`);
on the success path the coordinator passes the extractor's record through,
adding only the consultation URL; the coordinator writes `sucesso = false`
only in its own terminal `_error_response` record. -/
theorem C5_success_flag (env : Env) (cnpj txt url : String) (u : Bool)
    (h14 : (digitsOf cnpj).length = 14)
    (hm : get_cache env (digitsOf cnpj) = none)
    (hp : env.perform 0 = .pageText txt url) :
    (∀ now text, (extract_from_text now text).metadados
        = { timestamp := now, sucesso := true, url_consulta := none })
    ∧ (consultar env cnpj u).1
        = .ok (.record { extract_from_text env.now txt with
            metadados := { timestamp := env.now, sucesso := true,
                           url_consulta := some url } })
    ∧ (∀ e, (error_response env.now e).metadados.sucesso = false) := by
  refine ⟨extract_metadados, ?_, fun e => rfl⟩
  have hmeta := extract_metadados env.now txt
  unfold consultar clean_cnpj
  cases u
  · simp [h14, consultAttempts, perform_consultation, hp, hmeta]
  · simp [h14, hm, consultAttempts, perform_consultation, hp, hmeta]

/-- Witness for C5's amended theorem in the concrete environment. -/
theorem C5_success_flag_witness :
    (consultar envOk "11111111111111" true).1
      = .ok (.record { extract_from_text "T" "" with
          metadados := { timestamp := "T", sucesso := true, url_consulta := some "u" } }) :=
  (C5_success_flag envOk "11111111111111" "" "u" true
    (by decide) (by decide) rfl).2.1

/-! ## Claim C3: the asterisk masking sentinel -/

theorem mapply_mask (d : MainData) (a : MAct)
    (h1 : d.contato.telefone ≠ "********")
    (h2 : d.situacao.motivo ≠ "********")
    (h3 : d.situacao.situacao_especial ≠ "********")
    (h4 : d.situacao.data_situacao_especial = ""
          ∨ strContains d.situacao.data_situacao_especial "/" = true) :
    (mapply d a).contato.telefone ≠ "********"
    ∧ (mapply d a).situacao.motivo ≠ "********"
    ∧ (mapply d a).situacao.situacao_especial ≠ "********"
    ∧ ((mapply d a).situacao.data_situacao_especial = ""
       ∨ strContains (mapply d a).situacao.data_situacao_especial "/" = true) := by
  cases a with
  | inscricao num t => cases t <;> exact ⟨h1, h2, h3, h4⟩
  | natureza nat =>
    simp only [mapply]
    split_ifs <;> exact ⟨h1, h2, h3, h4⟩
  | principal ativ =>
    simp only [mapply]
    split_ifs <;> exact ⟨h1, h2, h3, h4⟩
  | telefone v =>
    simp only [mapply]
    split_ifs with hc
    · simp only [Bool.and_eq_true, decide_eq_true_eq] at hc
      exact ⟨hc.2, h2, h3, h4⟩
    · exact ⟨h1, h2, h3, h4⟩
  | cadastral v =>
    simp only [mapply]
    split_ifs <;> exact ⟨h1, h2, h3, h4⟩
  | dataSituacao v =>
    simp only [mapply]
    split_ifs <;> exact ⟨h1, h2, h3, h4⟩
  | motivo v =>
    simp only [mapply]
    split_ifs with hc
    · simp only [Bool.and_eq_true, decide_eq_true_eq] at hc
      exact ⟨h1, hc.1.2, h3, h4⟩
    · exact ⟨h1, h2, h3, h4⟩
  | sitEspecial v =>
    simp only [mapply]
    split_ifs with hc
    · simp only [Bool.and_eq_true, decide_eq_true_eq] at hc
      exact ⟨h1, h2, hc.1.2, h4⟩
    · exact ⟨h1, h2, h3, h4⟩
  | dataEspecial v =>
    simp only [mapply]
    split_ifs with hc
    · simp only [Bool.and_eq_true, decide_eq_true_eq] at hc
      exact ⟨h1, h2, h3, Or.inr hc.2⟩
    · exact ⟨h1, h2, h3, h4⟩
  | emitido line =>
    simp only [mapply]
    cases findStamp line.data <;> exact ⟨h1, h2, h3, h4⟩
  | _ => exact ⟨h1, h2, h3, h4⟩

theorem mstep_mask (l : String) (rest : List String) (d : MainData)
    (h1 : d.contato.telefone ≠ "********")
    (h2 : d.situacao.motivo ≠ "********")
    (h3 : d.situacao.situacao_especial ≠ "********")
    (h4 : d.situacao.data_situacao_especial = ""
          ∨ strContains d.situacao.data_situacao_especial "/" = true) :
    (mstep l rest d).contato.telefone ≠ "********"
    ∧ (mstep l rest d).situacao.motivo ≠ "********"
    ∧ (mstep l rest d).situacao.situacao_especial ≠ "********"
    ∧ ((mstep l rest d).situacao.data_situacao_especial = ""
       ∨ strContains (mstep l rest d).situacao.data_situacao_especial "/" = true) :=
  mapply_mask d _ h1 h2 h3 h4

theorem mscan_mask (ls : List String) (d : MainData)
    (h1 : d.contato.telefone ≠ "********")
    (h2 : d.situacao.motivo ≠ "********")
    (h3 : d.situacao.situacao_especial ≠ "********")
    (h4 : d.situacao.data_situacao_especial = ""
          ∨ strContains d.situacao.data_situacao_especial "/" = true) :
    (mscanLines ls d).contato.telefone ≠ "********"
    ∧ (mscanLines ls d).situacao.motivo ≠ "********"
    ∧ (mscanLines ls d).situacao.situacao_especial ≠ "********"
    ∧ ((mscanLines ls d).situacao.data_situacao_especial = ""
       ∨ strContains (mscanLines ls d).situacao.data_situacao_especial "/" = true) := by
  induction ls generalizing d with
  | nil => exact ⟨h1, h2, h3, h4⟩
  | cons l rest ih =>
    have hs := mstep_mask (strTrim l) rest d h1 h2 h3 h4
    exact ih (mstep (strTrim l) rest d) hs.1 hs.2.1 hs.2.2.1 hs.2.2.2

/-- C3 counterexample: a raw value line that is a run of asterisks does
land verbatim in `contact.phone`: the V2 extractor has no masking filter
for the phone at all, and the `main.py` extractor masks only the exact
eight-asterisk sentinel, letting a four-asterisk run through. -/
theorem C3_masking_counterexample :
    (extract_from_text "T" "TELEFONE\n********").contato.telefone = "********"
    ∧ (processar_dados "TELEFONE\n****").contato.telefone = "****" :=
  ⟨by decide, by decide⟩

/-- C3 amended: in the V2 extractor, `status.reason`, `status.specialStatus`
and `status.specialStatusDate` are never populated at all (they stay
empty for every input), while `contact.phone` is written with no masking
filter; in the `main.py` extractor, the exact sentinel `"********"` never
appears in `contact.phone`, `status.reason` or `status.specialStatus`
(asterisk runs of other lengths pass through), and
`status.specialStatusDate` is either empty or contains a `/`, so no
asterisk run of any length ever appears there. -/
theorem C3_masking_amended :
    (∀ now text,
      (extract_from_text now text).situacao.motivo = ""
      ∧ (extract_from_text now text).situacao.situacao_especial = ""
      ∧ (extract_from_text now text).situacao.data_situacao_especial = "")
    ∧ (∀ texto,
      (processar_dados texto).contato.telefone ≠ "********"
      ∧ (processar_dados texto).situacao.motivo ≠ "********"
      ∧ (processar_dados texto).situacao.situacao_especial ≠ "********"
      ∧ ((processar_dados texto).situacao.data_situacao_especial = ""
         ∨ strContains (processar_dados texto).situacao.data_situacao_especial "/" = true)) := by
  constructor
  · intro now text
    have h := scanLines_frame (cleanLines text) (initData now)
    exact ⟨h.1, h.2.1, h.2.2.1⟩
  · intro texto
    exact mscan_mask (strLines texto) initMainData
      (by decide) (by decide) (by decide) (Or.inl rfl)

/-! ## Claim C6: the secondary-activities boundary -/

/-- C6: on the five-line scenario both extractors produce exactly
`[{01.01-1, A}, {02.02-2, B}]`, stopping before "LOGRADOURO"; and in
general the V2 inner scan is the longest prefix of lines that contain
`" - "` and no boundary marker, each split at its first `" - "`, in
order, with no de-duplication. -/
theorem C6_secondary_boundary :
    (extract_from_text "T" secText).atividades.secundarias
      = [{ codigo := "01.01-1", descricao := "A" },
         { codigo := "02.02-2", descricao := "B" }]
    ∧ (processar_dados secText).atividades.secundarias
      = [{ codigo := "01.01-1", descricao := "A" },
         { codigo := "02.02-2", descricao := "B" }]
    ∧ ∀ ls : List String,
        collectSec ls
          = (ls.takeWhile (fun l => strContains l " - "
              && !(strContains l "NATUREZA JURÍDICA" || strContains l "LOGRADOURO"))).map
              (fun l =>
                { codigo := ((strSplitOnce l " - ").getD (l, "")).1,
                  descricao := ((strSplitOnce l " - ").getD (l, "")).2 }) := by
  refine ⟨by decide, by decide, ?_⟩
  intro ls
  induction ls with
  | nil => rfl
  | cons l t ih =>
    by_cases h1 : strContains l " - " = true
    · by_cases h2 : strContains l "NATUREZA JURÍDICA" = true
      · simp [collectSec, List.takeWhile_cons, h1, h2]
      · by_cases h3 : strContains l "LOGRADOURO" = true
        · simp [collectSec, List.takeWhile_cons, h1, h2, h3]
        · simp [collectSec, List.takeWhile_cons, h1, h2, h3, ih]
    · simp [collectSec, List.takeWhile_cons, h1]

/-! ## Claim C7: totality and complete record shape -/

theorem splitOnceL_isSome (sep l : List Char) :
    (splitOnceL sep l).isSome = containsL sep l := by
  induction l with
  | nil => cases sep <;> rfl
  | cons c rest ih =>
    by_cases h : isPrefixL sep (c :: rest) = true
    · simp [splitOnceL, containsL, h]
    · simp [splitOnceL, containsL, h, ih]

theorem strSplitOnce_isSome (s sep : String) (h : strContains s sep = true) :
    ∃ p, strSplitOnce s sep = some p := by
  unfold strContains at h
  unfold strSplitOnce
  have hs := splitOnceL_isSome sep.data s.data
  rw [h] at hs
  rcases Option.isSome_iff_exists.mp hs with ⟨p, hp⟩
  exact ⟨(⟨p.1⟩, ⟨p.2⟩), by rw [hp]; rfl⟩

theorem splitOnceE_ok (s sep : String) (h : strContains s sep = true) :
    splitOnceE s sep = .ok ((strSplitOnce s sep).getD (s, "")) := by
  rcases strSplitOnce_isSome s sep h with ⟨p, hp⟩
  unfold splitOnceE
  rw [hp]
  rfl

theorem collectSecE_eq (ls : List String) : collectSecE ls = .ok (collectSec ls) := by
  induction ls with
  | nil => rfl
  | cons l t ih =>
    by_cases h1 : strContains l " - " = true
    · by_cases h2 : (strContains l "NATUREZA JURÍDICA" || strContains l "LOGRADOURO") = true
      · simp [collectSecE, collectSec, h1, h2]
      · rw [collectSecE, collectSec]
        simp only [h1, h2, if_pos, if_neg, Bool.false_eq_true, not_false_iff, ite_false,
          ite_true]
        rw [splitOnceE_ok l " - " h1, ih]
        rfl
    · simp [collectSecE, collectSec, h1]

theorem stepE_eq (l n : String) (rest : List String) (d : CNPJData) :
    stepE l n rest d = .ok (step l n rest d) := by
  unfold stepE step
  cases field_map l <;> dsimp only
  · split_ifs <;>
      first
        | rfl
        | (cases findStamp l.data <;> rfl)
        | (rw [collectSecE_eq]; rfl)
        | (rename_i hsep; rw [splitOnceE_ok _ _ hsep]; rfl)
  · split_ifs <;> rfl

theorem scanLinesE_eq (ls : List String) (d : CNPJData) :
    scanLinesE ls d = .ok (scanLines ls d) := by
  induction ls generalizing d with
  | nil => rfl
  | cons l rest ih =>
    show Except.bind (stepE l (rest.headD "") rest d) _ = _
    rw [stepE_eq]
    exact ih (step l (rest.headD "") rest d)

/-- C7: extraction is total: the exception-aware embedding of
`extract_from_text`, where every tuple-unpacking `split` is allowed to
fail, returns `ok` on every input — the source's guards make every
partial operation safe — and what it returns is always the complete
record shape of `extract_from_text`; on text where nothing is located
(here: the empty text) every field is at its zero value, never absent. -/
theorem C7_total_extraction :
    (∀ now text, extract_from_textE now text = .ok (extract_from_text now text))
    ∧ (∀ now, extract_from_text now ""
        = { cnpj := { numero := "", tipo := "", data_abertura := "" }
            empresa := { razao_social := "", nome_fantasia := "", porte := ""
                         natureza_juridica := { codigo := "", descricao := "" } }
            atividades := { principal := { codigo := "", descricao := "" }
                            secundarias := [] }
            endereco := { logradouro := "", numero := "", complemento := "", cep := ""
                          bairro := "", municipio := "", uf := "" }
            contato := { email := "", telefone := "" }
            situacao := { cadastral := "", data_situacao := "", motivo := ""
                          situacao_especial := "", data_situacao_especial := "" }
            comprovante := { data_emissao := "", hora_emissao := "" }
            metadados := { timestamp := now, sucesso := true, url_consulta := none } }) :=
  ⟨fun now text => scanLinesE_eq (cleanLines text) (initData now), fun now => rfl⟩

/-! ## Claim C10: label matching policy of the V2 extractor -/

theorem getTarget_setTarget_ne (t' t : FieldTarget) (h : t' ≠ t)
    (d : CNPJData) (v : String) :
    getTarget (setTarget d t' v) t = getTarget d t := by
  cases t' <;> cases t <;> first | rfl | exact absurd rfl h

theorem field_map_some_iff (line : String) (t : FieldTarget) :
    field_map line = some t ↔ line = labelOf t := by
  constructor
  · intro h
    unfold field_map at h
    have hp := @List.find?_some FieldTarget (fun x => decide (line = labelOf x))
      t fieldTargets h
    exact of_decide_eq_true hp
  · intro h
    subst h
    cases t <;> decide

theorem step_target (l n : String) (rest : List String) (d : CNPJData)
    (t : FieldTarget) (h : l ≠ labelOf t) :
    getTarget (step l n rest d) t = getTarget d t := by
  unfold step
  cases hfm : field_map l <;> dsimp only
  · split_ifs <;>
      first
        | (cases t <;> rfl)
        | (cases findStamp l.data <;> cases t <;> rfl)
  · rename_i t'
    have hne : t' ≠ t := by
      intro heq
      exact h (heq ▸ (field_map_some_iff l t').mp hfm)
    split_ifs <;> first | rfl | exact getTarget_setTarget_ne t' t hne d n

theorem step_numero_fww (l n : String) (rest : List String) (d : CNPJData)
    (h : d.endereco.numero ≠ "") :
    (step l n rest d).endereco.numero = d.endereco.numero := by
  unfold step
  cases hfm : field_map l <;> dsimp only
  · split_ifs <;>
      first
        | rfl
        | (cases findStamp l.data <;> rfl)
  · rename_i t'
    split_ifs with hc1 hc2
    · rfl
    · have hne : t' ≠ .end_numero := by
        intro heq
        exact hc2 ⟨heq, h⟩
      exact getTarget_setTarget_ne t' .end_numero hne d n
    · rfl

/-- C10: a simple mapped field changes only when the trimmed line equals
its `field_map` label exactly (a line merely containing a label changes no
mapped field); `field_map` recognises exactly the 15 exact labels; the
composite headers and the certificate line match by substring containment
(shown on superstring lines); and `address.numero` is first-write-wins:
once non-empty, no later step overwrites it. -/
theorem C10_matching_policy :
    (∀ l n rest d t, l ≠ labelOf t →
        getTarget (step l n rest d) t = getTarget d t)
    ∧ (∀ line t, field_map line = some t ↔ line = labelOf t)
    ∧ (∀ l n rest d, d.endereco.numero ≠ "" →
        (step l n rest d).endereco.numero = d.endereco.numero)
    ∧ (extract_from_text "T" "xUFx\nSP").endereco.uf = ""
    ∧ (extract_from_text "T" "UF\nSP").endereco.uf = "SP"
    ∧ (extract_from_text "T"
        ("zzz" ++ natHdr ++ "zzz\n206-2 - Sociedade Empresária Limitada")).empresa.natureza_juridica
      = { codigo := "206-2", descricao := "Sociedade Empresária Limitada" }
    ∧ (extract_from_text "T" "xxEmitido no dia 01/02/2003 às 04:05:06yy").comprovante
      = { data_emissao := "01/02/2003", hora_emissao := "04:05:06" }
    ∧ (extract_from_text "T" "NÚMERO\n10\nNÚMERO\n20").endereco.numero = "10" :=
  ⟨fun l n rest d t h => step_target l n rest d t h,
   field_map_some_iff,
   fun l n rest d h => step_numero_fww l n rest d h,
   by decide, by decide, by decide, by decide, by decide⟩

/-- Witness for C10: exact-match necessity at the substring line "xUFx"
and first-write-wins at a concrete populated record. -/
theorem C10_matching_policy_witness :
    getTarget (step "xUFx" "SP" [] (initData "W")) .uf = getTarget (initData "W") .uf
    ∧ (step "NÚMERO" "20" [] (extract_from_text "T" "NÚMERO\n10")).endereco.numero
        = (extract_from_text "T" "NÚMERO\n10").endereco.numero :=
  ⟨(C10_matching_policy.1 "xUFx" "SP" [] (initData "W") .uf (by decide)),
   (C10_matching_policy.2.2.1 "NÚMERO" "20" [] (extract_from_text "T" "NÚMERO\n10")
     (by decide))⟩

end Nexconsult
